import Mathlib

/-!
Shallow embedding of `src/chrome-launcher/chrome-launcher.ts`.

The launcher's observable behaviour is modelled by pure functions over an
explicit environment `Env` (the outside world: platform string, filesystem,
port source, probe outcomes) and a world state `W` that records the global
probe-attempt counter and an ordered trace of side effects (`Event`).
Promise rejection is modelled by `Except Err`; a promise that only ever
resolves is a function provably returning `Except.ok`.
-/

set_option linter.unusedVariables false
set_option linter.unnecessarySeqFocus false

/-- Mirrors `utils.defaults(val, def)`: the value unless it is undefined. -/
def defaults {α : Type} (val : Option α) (d : α) : α :=
  match val with
  | some v => v
  | none => d

/-- Mirrors the `Options` interface; every field is optional (may be undefined). -/
structure Options where
  startingUrl : Option String := none
  chromeFlags : Option (List String) := none
  port : Option Nat := none
  handleSIGINT : Option Bool := none
  chromePath : Option String := none
deriving DecidableEq, Repr

/-- Mirrors the `LaunchedChrome` handle; the source declares `pid : number` and
`port : number`, but at runtime either may be undefined, so the model uses
`Option` to record what the fields actually hold. -/
structure LaunchedChrome where
  pid : Option Nat
  port : Option Nat
deriving DecidableEq, Repr

/-- Errors a launch promise can reject with.  `connectError` is the raw
connection error of a readiness probe; the spec calls the version of it that
survives retry exhaustion `DebuggerNotReady`. -/
inductive Err where
  | unsupportedPlatform (platform : String)
  | noInstallationsFound
  | connectError (port : Nat)
deriving DecidableEq, Repr

/-- Observable side effects of the launcher, in the order they happen. -/
inductive Event where
  | probeAttempt (port : Nat)
  | delayMs (ms : Nat)
  | mkTmpDirEv (dir : String)
  | openLogEv (path : String)
  | findInstallationsEv (platform : String)
  | randomPortEv (port : Nat)
  | spawnProcEv (path : String) (args : List String)
  | writePidFileEv (path : String) (pid : Nat)
  | sigintHandlerEv
  | taskkillEv (pid : Nat)
  | processKillEv (target : Int)
  | warnKillFailedEv
  | childClosedEv (pid : Nat)
  | closeFileEv (fd : Nat)
  | rimrafEv (dir : String)
deriving DecidableEq, Repr

/-- World state: global probe-attempt counter plus the effect trace. -/
structure W where
  probeCount : Nat
  trace : List Event
deriving DecidableEq, Repr

/-- Append one effect to the trace. -/
def W.emit (w : W) (e : Event) : W :=
  { w with trace := w.trace ++ [e] }

/-- The environment the launcher runs in.

`defaultFlags` — Modelled from the spec: `DEFAULT_FLAGS` is imported from
`./flags`, a file of this repository that is not under `src/`.  The spec fixes
only its contract: a static ordered sequence of default flags, and the
debugging-port, user-data-dir and Linux-only sandbox flags are injected by the
coordinator, never by this collaborator.  It is therefore kept abstract here.

`probe n p` — the outcome of the `n`-th TCP connection attempt (globally
counted) against port `p`: `true` means the connect succeeds.

`killOk` — whether the OS-level termination call (`process.kill` /
`taskkill`) succeeds or throws. -/
structure Env where
  platform : String
  defaultFlags : List String
  tmpDir : String
  outFd : Nat
  errFd : Nat
  installations : List String
  randomPort : Nat
  spawnPid : Nat
  probe : Nat → Nat → Bool
  killOk : Bool

/-- Mirrors `_SUPPORTED_PLATFORMS`. -/
def supportedPlatformsList : List String := ["darwin", "linux", "win32"]

/-- Mirrors the `Launcher` class fields.  Fields the source leaves undefined
until later are `Option`. -/
structure Launcher where
  tmpDirandPidFileReady : Bool
  pollInterval : Nat
  pidFile : Option String
  startingUrl : String
  TMP_PROFILE_DIR : Option String
  outFile : Option Nat
  errFile : Option Nat
  chromePath : Option String
  chromeFlags : List String
  chrome : Option Nat
  requestedPort : Nat
  port : Option Nat
  pid : Option Nat
deriving DecidableEq, Repr

/-- Mirrors the `Launcher` constructor together with the field initializers. -/
def Launcher.create (opts : Options) : Launcher :=
  { tmpDirandPidFileReady := false
    pollInterval := 500
    pidFile := none
    startingUrl := defaults opts.startingUrl "about:blank"
    TMP_PROFILE_DIR := none
    outFile := none
    errFile := none
    chromePath := opts.chromePath
    chromeFlags := defaults opts.chromeFlags []
    chrome := none
    requestedPort := defaults opts.port 0
    port := none
    pid := none }

/-- JavaScript template interpolation of a possibly-undefined number. -/
def numStr : Option Nat → String
  | some n => Nat.repr n
  | none => "undefined"

/-- JavaScript template interpolation of a possibly-undefined string. -/
def dirStr : Option String → String
  | some s => s
  | none => "undefined"

/-- Mirrors the private `flags` getter. -/
def Launcher.flags (env : Env) (l : Launcher) : List String :=
  let fl := env.defaultFlags ++
    ["--remote-debugging-port=" ++ numStr l.port,
     "--user-data-dir=" ++ dirStr l.TMP_PROFILE_DIR]
  let fl := if env.platform == "linux" then fl ++ ["--disable-setuid-sandbox"] else fl
  fl ++ l.chromeFlags ++ [l.startingUrl]

/-- Mirrors `Launcher.prepare`: platform check first, then temp dir, the two
log files, and the pid-file path. -/
def Launcher.prepare (env : Env) (l : Launcher) (w : W) : (Except Err Launcher) × W :=
  if supportedPlatformsList.contains env.platform then
    let dir := env.tmpDir
    let w := (w.emit (Event.mkTmpDirEv dir)).emit (Event.openLogEv (dir ++ "/chrome-out.log"))
    let w := w.emit (Event.openLogEv (dir ++ "/chrome-err.log"))
    (Except.ok { l with
        TMP_PROFILE_DIR := some dir
        outFile := some env.outFd
        errFile := some env.errFd
        pidFile := some (dir ++ "/chrome.pid")
        tmpDirandPidFileReady := true }, w)
  else
    (Except.error (Err.unsupportedPlatform env.platform), w)

/-- Mirrors `Launcher.isDebuggerReady`: one raw TCP connection attempt against
`this.port`, resolving on connect and rejecting on error. -/
def Launcher.isDebuggerReady (env : Env) (l : Launcher) (w : W) : Bool × W :=
  let port := l.port.getD 0
  (env.probe w.probeCount port,
    { probeCount := w.probeCount + 1, trace := w.trace ++ [Event.probeAttempt port] })

/-- Mirrors the `poll` closure of `Launcher.waitUntilReady`: `retries` is the
counter before the current attempt increments it; a failed attempt with the
incremented counter above 10 rejects with the last probe's error, otherwise the
loop delays `pollInterval` and polls again. -/
def Launcher.pollAux (env : Env) (l : Launcher) (retries : Nat) (w : W) :
    (Except Err Unit) × W :=
  let r := retries + 1
  let pw := Launcher.isDebuggerReady env l w
  if pw.1 then (Except.ok (), pw.2)
  else if r > 10 then (Except.error (Err.connectError (l.port.getD 0)), pw.2)
  else Launcher.pollAux env l r (pw.2.emit (Event.delayMs l.pollInterval))
termination_by 11 - retries
decreasing_by omega

/-- Mirrors `Launcher.waitUntilReady`: start polling with `retries = 0`. -/
def Launcher.waitUntilReady (env : Env) (l : Launcher) (w : W) : (Except Err Unit) × W :=
  Launcher.pollAux env l 0 w

/-- Mirrors `Launcher.spawn`: no-op resolve of the existing pid when a chrome
subprocess is already tracked; otherwise allocate the port when the requested
port was 0, spawn with the assembled flags, persist the pid file, and in
either case wait until the debugger is ready. -/
def Launcher.spawn (env : Env) (l : Launcher) (execPath : String) (w : W) :
    (Except Err (Launcher × Nat)) × W :=
  match l.chrome with
  | some pid =>
    let rw := Launcher.waitUntilReady env l w
    (rw.1.map (fun _ => (l, pid)), rw.2)
  | none =>
    let l := if l.requestedPort == 0 then { l with port := some env.randomPort } else l
    let w := if l.requestedPort == 0 then w.emit (Event.randomPortEv env.randomPort) else w
    let pid := env.spawnPid
    let w := w.emit (Event.spawnProcEv execPath (Launcher.flags env l))
    let l := { l with chrome := some pid }
    let w := w.emit (Event.writePidFileEv (dirStr l.pidFile) pid)
    let rw := Launcher.waitUntilReady env l w
    (rw.1.map (fun _ => (l, pid)), rw.2)

/-- The tail of `Launcher.launch` after the reuse check has fallen through:
prepare the workspace if not ready, resolve the executable path (failing when
the finder returns no installations), then spawn and record the pid. -/
def Launcher.launchRest (env : Env) (l : Launcher) (w : W) : (Except Err Launcher) × W :=
  let pw := if !l.tmpDirandPidFileReady then Launcher.prepare env l w else (Except.ok l, w)
  match pw with
  | (Except.error e, w) => (Except.error e, w)
  | (Except.ok l, w) =>
    match l.chromePath with
    | none =>
      let w := w.emit (Event.findInstallationsEv env.platform)
      match env.installations with
      | [] => (Except.error Err.noInstallationsFound, w)
      | first :: _ =>
        let l := { l with chromePath := some first }
        match Launcher.spawn env l first w with
        | (Except.ok (l, pid), w) => (Except.ok { l with pid := some pid }, w)
        | (Except.error e, w) => (Except.error e, w)
    | some path =>
      match Launcher.spawn env l path w with
      | (Except.ok (l, pid), w) => (Except.ok { l with pid := some pid }, w)
      | (Except.error e, w) => (Except.error e, w)

/-- Mirrors `Launcher.launch`: with a non-zero requested port, adopt it and try
one readiness probe first, resolving immediately on success and falling through
to the normal path on failure. -/
def Launcher.launch (env : Env) (l : Launcher) (w : W) : (Except Err Launcher) × W :=
  if l.requestedPort != 0 then
    let l := { l with port := some l.requestedPort }
    let pw := Launcher.isDebuggerReady env l w
    if pw.1 then (Except.ok l, pw.2)
    else Launcher.launchRest env l pw.2
  else Launcher.launchRest env l w

/-- Mirrors `Launcher.destroyTmp`: no-op when no profile dir exists; otherwise
close whichever log handles are open and remove the directory tree. -/
def Launcher.destroyTmp (env : Env) (l : Launcher) (w : W) : Launcher × W :=
  match l.TMP_PROFILE_DIR with
  | none => (l, w)
  | some dir =>
    let ow := match l.outFile with
      | some fd => ({ l with outFile := none }, w.emit (Event.closeFileEv fd))
      | none => (l, w)
    let ew := match ow.1.errFile with
      | some fd => ({ ow.1 with errFile := none }, ow.2.emit (Event.closeFileEv fd))
      | none => (ow.1, ow.2)
    (ew.1, ew.2.emit (Event.rimrafEv dir))

/-- Mirrors `Launcher.kill`: resolve trivially when no subprocess is tracked;
otherwise issue the platform termination call (`taskkill` on win32, a negative
process-group signal elsewhere), log and swallow its failure, clear the
subprocess reference unconditionally, and resolve only after the close event
and the workspace teardown. -/
def Launcher.kill (env : Env) (l : Launcher) (w : W) : (Except Err Launcher) × W :=
  match l.chrome with
  | some pid =>
    let w := if env.platform == "win32"
      then w.emit (Event.taskkillEv pid)
      else w.emit (Event.processKillEv (-(pid : Int)))
    let w := if env.killOk then w else w.emit Event.warnKillFailedEv
    let l := { l with chrome := none }
    let w := w.emit (Event.childClosedEv pid)
    let dw := Launcher.destroyTmp env l w
    (Except.ok dw.1, dw.2)
  | none => (Except.ok l, w)

/-- Mirrors the exported `launch` function: resolve the `handleSIGINT` default
by writing it back into the caller's options object, optionally install the
SIGINT handler, run the instance launch, and build the returned handle from
the instance's `pid` and `port` fields.  The (possibly mutated) options object
is returned alongside so mutation is observable. -/
def launchEntry (env : Env) (opts : Options) (w : W) :
    (Except Err LaunchedChrome) × Options × W :=
  let opts := { opts with handleSIGINT := some (defaults opts.handleSIGINT true) }
  let inst := Launcher.create opts
  let w := if defaults opts.handleSIGINT true then w.emit Event.sigintHandlerEv else w
  match Launcher.launch env inst w with
  | (Except.ok l, w) => (Except.ok { pid := l.pid, port := l.port }, opts, w)
  | (Except.error e, w) => (Except.error e, opts, w)

/-- The effect trace of a polling phase of `n` attempts that all fail:
a probe, then delay-probe pairs. -/
def pollTraceAux (port d : Nat) : Nat → List Event
  | 0 => []
  | 1 => [Event.probeAttempt port]
  | m + 2 => Event.probeAttempt port :: Event.delayMs d :: pollTraceAux port d (m + 1)

/-- The full 11-attempt exhaustion trace of the polling phase. -/
def pollFailTrace (port d : Nat) : List Event :=
  pollTraceAux port d 11

/-- Recognizes a readiness-probe attempt in the trace. -/
def isProbeEvent : Event → Bool
  | Event.probeAttempt _ => true
  | _ => false

/-- Recognizes an inter-attempt delay in the trace. -/
def isDelayEvent : Event → Bool
  | Event.delayMs _ => true
  | _ => false

/-- Recognizes a ProfileWorkspace effect (temp dir, log file, pid file). -/
def isWorkspaceEvent : Event → Bool
  | Event.mkTmpDirEv _ => true
  | Event.openLogEv _ => true
  | Event.writePidFileEv _ _ => true
  | _ => false

/-- Recognizes a subprocess spawn in the trace. -/
def isSpawnEvent : Event → Bool
  | Event.spawnProcEv _ _ => true
  | _ => false

/-- Recognizes a ProcessLocator invocation in the trace. -/
def isLocatorEvent : Event → Bool
  | Event.findInstallationsEv _ => true
  | _ => false

/-- Recognizes a PortSource invocation in the trace. -/
def isPortSourceEvent : Event → Bool
  | Event.randomPortEv _ => true
  | _ => false

/-- The argument vectors of all subprocess spawns recorded in the world. -/
def spawnedArgs (w : W) : List (List String) :=
  w.trace.filterMap (fun e => match e with
    | Event.spawnProcEv _ args => some args
    | _ => none)

/-- The debugging-port flag entry for a given port value. -/
def dbgFlag (port : Nat) : String :=
  "--remote-debugging-port=" ++ Nat.repr port

/-- The final port field of a resolved launch, if it resolved. -/
def portOfResult : Except Err Launcher → Option Nat
  | Except.ok l => l.port
  | Except.error _ => none

/-- Exhaustion behaviour of the polling phase in an environment where probes
never succeed: exactly the 11-attempt trace, then rejection with the last
probe failure. -/
def pollPhaseExhausts (env : Env) : Prop :=
  ∀ (l : Launcher) (w0 : W),
    Launcher.waitUntilReady env l w0 =
      (Except.error (Err.connectError (l.port.getD 0)),
       { probeCount := w0.probeCount + 11,
         trace := w0.trace ++ pollFailTrace (l.port.getD 0) l.pollInterval })

/-- The world state just before workspace teardown inside `kill` on the
subprocess branch: the platform termination call, the swallowed-failure
warning when that call errored, and the subprocess close notification. -/
def killPrefixW (env : Env) (w : W) (pid : Nat) : W :=
  let wk := if env.platform == "win32" then w.emit (Event.taskkillEv pid)
    else w.emit (Event.processKillEv (-(pid : Int)))
  let wk := if env.killOk then wk else wk.emit Event.warnKillFailedEv
  wk.emit (Event.childClosedEv pid)

/-- Concrete environment: darwin host, one installation, every probe connects. -/
def envListen : Env :=
  { platform := "darwin", defaultFlags := [], tmpDir := "/tmp/profile",
    outFd := 3, errFd := 4, installations := ["chrome"], randomPort := 5555,
    spawnPid := 42, probe := fun _ _ => true, killOk := true }

/-- Concrete environment: like `envListen` but no probe ever connects. -/
def envDead : Env := { envListen with probe := fun _ _ => false }

/-- Concrete environment: an unsupported platform identifier. -/
def envNoPlat : Env := { envListen with platform := "freebsd" }

/-- Concrete environment: the finder returns no installations. -/
def envNoInstall : Env := { envListen with installations := [] }

/-- Concrete environment: linux host with a modelled default flag set. -/
def envLinux : Env :=
  { platform := "linux", defaultFlags := ["--disable-gpu"], tmpDir := "/tmp/profile",
    outFd := 3, errFd := 4, installations := ["chrome"], randomPort := 1234,
    spawnPid := 42, probe := fun _ _ => true, killOk := true }

/-- Concrete environment: the OS-level termination call throws. -/
def envKillFails : Env := { envListen with killOk := false }

/-- Concrete options: everything left undefined. -/
def optsEmpty : Options := {}

/-- Concrete options: an explicit requested port. -/
def optsPort9222 : Options := { port := some 9222 }

/-- Concrete options: port 0 plus a caller extra flag that duplicates the
debugging-port flag the coordinator will inject. -/
def optsDupFlag : Options :=
  { port := some 0, chromeFlags := some ["--remote-debugging-port=5555"] }

/-- Concrete options: a starting URL and one extra flag. -/
def optsExtra : Options :=
  { startingUrl := some "http://example.com", chromeFlags := some ["--headless"] }

/-- Concrete launcher state after a successful spawn (subprocess pid 7). -/
def launcherWithChrome : Launcher :=
  { Launcher.create optsEmpty with
    chrome := some 7, TMP_PROFILE_DIR := some "/tmp/profile",
    outFile := some 3, errFile := some 4, pidFile := some "/tmp/profile/chrome.pid",
    tmpDirandPidFileReady := true }

/-- The empty starting world. -/
def w0 : W := { probeCount := 0, trace := [] }

/-- Helper: when every probe against the launcher's port fails, the poll loop
started at counter `k` performs the remaining `m = 11 - k` attempts, appends
the corresponding probe/delay trace, and rejects with the last probe error. -/
theorem pollAux_allFail (env : Env) (l : Launcher)
    (h : ∀ n, env.probe n (l.port.getD 0) = false) :
    ∀ m k w, k + m = 11 → 1 ≤ m →
      Launcher.pollAux env l k w =
        (Except.error (Err.connectError (l.port.getD 0)),
         { probeCount := w.probeCount + m,
           trace := w.trace ++ pollTraceAux (l.port.getD 0) l.pollInterval m }) := by
  intro m
  induction m with
  | zero => intro k w hk h1; exact absurd h1 (by omega)
  | succ t ih =>
    intro k w hk _
    rw [Launcher.pollAux]
    cases t with
    | zero =>
      have hk10 : k = 10 := by omega
      subst hk10
      simp [Launcher.isDebuggerReady, h, pollTraceAux]
    | succ u =>
      have hlt : ¬ (k + 1 > 10) := by omega
      simp only [Launcher.isDebuggerReady, h, Bool.false_eq_true, if_false, hlt, W.emit]
      rw [ih (k + 1) _ (by omega) (by omega)]
      simp [pollTraceAux, List.append_assoc]
      omega

/-- Helper: a probe that succeeds on the current attempt makes the poll loop
resolve at once, recording exactly that one probe. -/
theorem pollAux_firstSuccess (env : Env) (l : Launcher) (k : Nat) (w : W)
    (h : env.probe w.probeCount (l.port.getD 0) = true) :
    Launcher.pollAux env l k w =
      (Except.ok (),
       { probeCount := w.probeCount + 1,
         trace := w.trace ++ [Event.probeAttempt (l.port.getD 0)] }) := by
  rw [Launcher.pollAux]
  simp [Launcher.isDebuggerReady, h]

/-- Helper: workspace teardown never touches the subprocess reference. -/
theorem destroyTmp_chrome (env : Env) (l : Launcher) (w : W) :
    (Launcher.destroyTmp env l w).1.chrome = l.chrome := by
  cases hd : l.TMP_PROFILE_DIR <;> cases ho : l.outFile <;> cases he : l.errFile <;>
    simp [Launcher.destroyTmp, hd, ho, he, W.emit]

/-- Helper: workspace teardown only appends to the trace. -/
theorem destroyTmp_trace_mono (env : Env) (l : Launcher) (w : W) (e : Event)
    (he : e ∈ w.trace) : e ∈ (Launcher.destroyTmp env l w).2.trace := by
  cases hd : l.TMP_PROFILE_DIR <;> cases ho : l.outFile <;> cases hf : l.errFile <;>
    simp [Launcher.destroyTmp, hd, ho, hf, W.emit, he]

/-- Helper: on the subprocess branch, `kill` resolves with exactly the output
of workspace teardown run after the termination call, the swallowed failure,
and the close notification. -/
theorem kill_some (env : Env) (l : Launcher) (w : W) (pid : Nat)
    (hc : l.chrome = some pid) :
    Launcher.kill env l w =
      (Except.ok (Launcher.destroyTmp env { l with chrome := none } (killPrefixW env w pid)).1,
       (Launcher.destroyTmp env { l with chrome := none } (killPrefixW env w pid)).2) := by
  simp only [Launcher.kill, killPrefixW, hc]

/-- Helper: `kill` always resolves, and afterwards the subprocess reference is
cleared. -/
theorem kill_resolves (env : Env) (l : Launcher) (w : W) :
    ∃ l1 w1, Launcher.kill env l w = (Except.ok l1, w1) ∧ l1.chrome = none := by
  cases hc : l.chrome with
  | none => exact ⟨l, w, by simp [Launcher.kill, hc], hc⟩
  | some pid =>
    refine ⟨_, _, kill_some env l w pid hc, ?_⟩
    rw [destroyTmp_chrome]

/-- Helper: the public entry point returns the caller's options object with
exactly the `handleSIGINT` field overwritten by its resolved default. -/
theorem launchEntry_opts (env : Env) (opts : Options) (w : W) :
    (launchEntry env opts w).2.1 =
      { opts with handleSIGINT := some (defaults opts.handleSIGINT true) } := by
  simp only [launchEntry]
  split <;> rfl

/-- C1: for every launch whose chosen port (requested or allocated) has nothing
listening, the polling phase performs exactly 11 probe attempts (1 initial +
10 retries) with the fixed 500 time-unit delay between consecutive attempts,
and after the 11th failed attempt the launch rejects with the last probe
failure (the error the spec names `DebuggerNotReady`). -/
theorem c1_retry_exhaustion (env : Env) (opts : Options) (w : W)
    (hprobe : ∀ n p, env.probe n p = false)
    (hplat : supportedPlatformsList.contains env.platform = true)
    (hinst : env.installations ≠ []) :
    pollPhaseExhausts env
    ∧ (Launcher.create opts).pollInterval = 500
    ∧ (∀ p, (pollFailTrace p 500).countP isProbeEvent = 11
        ∧ (pollFailTrace p 500).countP isDelayEvent = 10
        ∧ (pollFailTrace p 500).all (fun e => !isDelayEvent e || e == Event.delayMs 500) = true)
    ∧ ∃ w', Launcher.launch env (Launcher.create opts) w =
        (Except.error (Err.connectError
          (if defaults opts.port 0 = 0 then env.randomPort else defaults opts.port 0)), w') := by
  have hpoll : pollPhaseExhausts env := by
    intro l w0
    exact pollAux_allFail env l (fun n => hprobe n _) 11 0 w0 rfl (by omega)
  have hplatm : env.platform ∈ supportedPlatformsList := by
    simpa using hplat
  refine ⟨hpoll, rfl, fun p => ⟨rfl, rfl, rfl⟩, ?_⟩
  have key : (Launcher.launch env (Launcher.create opts) w).1 =
      Except.error (Err.connectError
        (if defaults opts.port 0 = 0 then env.randomPort else defaults opts.port 0)) := by
    by_cases hz : defaults opts.port 0 = 0
    · cases hcp : opts.chromePath with
      | none =>
        cases hI : env.installations with
        | nil => exact absurd hI hinst
        | cons first rest =>
          simp [Launcher.launch, Launcher.launchRest, Launcher.create, Launcher.prepare,
            Launcher.spawn, Launcher.waitUntilReady, W.emit, hz, hcp, hI, hplatm,
            pollAux_allFail env _ (fun n => hprobe n _) 11 0 _ rfl (by omega), Except.map]
      | some path =>
        simp [Launcher.launch, Launcher.launchRest, Launcher.create, Launcher.prepare,
          Launcher.spawn, Launcher.waitUntilReady, W.emit, hz, hcp, hplatm,
          pollAux_allFail env _ (fun n => hprobe n _) 11 0 _ rfl (by omega), Except.map]
    · cases hcp : opts.chromePath with
      | none =>
        cases hI : env.installations with
        | nil => exact absurd hI hinst
        | cons first rest =>
          simp [Launcher.launch, Launcher.launchRest, Launcher.create, Launcher.prepare,
            Launcher.spawn, Launcher.isDebuggerReady, Launcher.waitUntilReady, W.emit, hz, hcp,
            hI, hplatm, hprobe,
            pollAux_allFail env _ (fun n => hprobe n _) 11 0 _ rfl (by omega), Except.map]
      | some path =>
        simp [Launcher.launch, Launcher.launchRest, Launcher.create, Launcher.prepare,
          Launcher.spawn, Launcher.isDebuggerReady, Launcher.waitUntilReady, W.emit, hz, hcp,
          hplatm, hprobe,
          pollAux_allFail env _ (fun n => hprobe n _) 11 0 _ rfl (by omega), Except.map]
  exact ⟨(Launcher.launch env (Launcher.create opts) w).2, by rw [← key]⟩

/-- Witness for C1 at a concrete environment where no probe ever connects. -/
theorem c1_retry_exhaustion_witness :
    pollPhaseExhausts envDead
    ∧ (Launcher.create optsEmpty).pollInterval = 500
    ∧ (∀ p, (pollFailTrace p 500).countP isProbeEvent = 11
        ∧ (pollFailTrace p 500).countP isDelayEvent = 10
        ∧ (pollFailTrace p 500).all (fun e => !isDelayEvent e || e == Event.delayMs 500) = true)
    ∧ ∃ w', Launcher.launch envDead (Launcher.create optsEmpty) w0 =
        (Except.error (Err.connectError
          (if defaults optsEmpty.port 0 = 0 then envDead.randomPort
           else defaults optsEmpty.port 0)), w') :=
  c1_retry_exhaustion envDead optsEmpty w0 (fun _ _ => rfl) rfl (by decide)

/-- C2: with a non-zero requested port on which a listener is already
accepting connections, launch resolves at once; the only new effect is the
single reuse probe — no ProcessLocator call, no workspace creation, no
PortSource call, no subprocess spawn. -/
theorem c2_reuse_attach (env : Env) (opts : Options) (w : W) (rp : Nat)
    (hrp : opts.port = some rp) (hne : rp ≠ 0)
    (hlisten : env.probe w.probeCount rp = true) :
    Launcher.launch env (Launcher.create opts) w =
      (Except.ok { Launcher.create opts with port := some rp },
       { probeCount := w.probeCount + 1, trace := w.trace ++ [Event.probeAttempt rp] })
    ∧ (∀ e ∈ [Event.probeAttempt rp],
        isLocatorEvent e = false ∧ isWorkspaceEvent e = false
        ∧ isSpawnEvent e = false ∧ isPortSourceEvent e = false) := by
  constructor
  · simp [Launcher.launch, Launcher.create, Launcher.isDebuggerReady, defaults, hrp, hne, hlisten]
  · intro e he
    simp only [List.mem_singleton] at he
    subst he
    exact ⟨rfl, rfl, rfl, rfl⟩

/-- Witness for C2 at a concrete environment with a listener on port 9222. -/
theorem c2_reuse_attach_witness :
    Launcher.launch envListen (Launcher.create optsPort9222) w0 =
      (Except.ok { Launcher.create optsPort9222 with port := some 9222 },
       { probeCount := w0.probeCount + 1, trace := w0.trace ++ [Event.probeAttempt 9222] })
    ∧ (∀ e ∈ [Event.probeAttempt 9222],
        isLocatorEvent e = false ∧ isWorkspaceEvent e = false
        ∧ isSpawnEvent e = false ∧ isPortSourceEvent e = false) :=
  c2_reuse_attach envListen optsPort9222 w0 9222 rfl (by decide) rfl

/-- C3: kill is idempotent — it always resolves, and an immediately repeated
kill resolves with the same state and no further effects, whether or not a
subprocess was ever spawned. -/
theorem c3_kill_idempotent (env : Env) (l : Launcher) (w : W) :
    ∃ l1 w1, Launcher.kill env l w = (Except.ok l1, w1)
      ∧ Launcher.kill env l1 w1 = (Except.ok l1, w1) := by
  obtain ⟨l1, w1, h1, hnone⟩ := kill_resolves env l w
  exact ⟨l1, w1, h1, by simp [Launcher.kill, hnone]⟩

/-- Counterexample to C4: on the unsupported platform "freebsd" with requested
port 9222 and a listener on it, launch resolves successfully (no
`UnsupportedPlatform` error at all) and the trace records a network probe. -/
theorem c4_counterexample :
    Launcher.launch envNoPlat (Launcher.create optsPort9222) w0 =
      (Except.ok { Launcher.create optsPort9222 with port := some 9222 },
       { probeCount := 1, trace := [Event.probeAttempt 9222] })
    ∧ supportedPlatformsList.contains envNoPlat.platform = false
    ∧ isProbeEvent (Event.probeAttempt 9222) = true := by
  exact ⟨rfl, rfl, rfl⟩

/-- C4 (amended): on an unsupported platform, whenever the launch does not
resolve through the reuse path (requested port 0, or the single reuse probe
fails), it rejects with `UnsupportedPlatform` before any filesystem resource
is created — the only effect that may precede the error is the one reuse
probe of a non-zero requested port. -/
theorem c4_amended (env : Env) (opts : Options) (w : W)
    (hplat : supportedPlatformsList.contains env.platform = false)
    (h : defaults opts.port 0 = 0 ∨ env.probe w.probeCount (defaults opts.port 0) = false) :
    Launcher.launch env (Launcher.create opts) w =
      (Except.error (Err.unsupportedPlatform env.platform),
       if defaults opts.port 0 = 0 then w
       else { probeCount := w.probeCount + 1,
              trace := w.trace ++ [Event.probeAttempt (defaults opts.port 0)] })
    ∧ (∀ e ∈ [Event.probeAttempt (defaults opts.port 0)], isWorkspaceEvent e = false) := by
  have hplatm : env.platform ∉ supportedPlatformsList := by
    simpa using hplat
  constructor
  · by_cases hz : defaults opts.port 0 = 0
    · simp [Launcher.launch, Launcher.launchRest, Launcher.create, Launcher.prepare,
        hz, hplatm]
    · rcases h with h | h
      · exact absurd h hz
      · simp [Launcher.launch, Launcher.launchRest, Launcher.create, Launcher.prepare,
          Launcher.isDebuggerReady, hz, h, hplatm]
  · intro e he
    simp only [List.mem_singleton] at he
    subst he
    rfl

/-- Witness for C4 (amended) on the unsupported platform with no requested
port. -/
theorem c4_amended_witness :
    Launcher.launch envNoPlat (Launcher.create optsEmpty) w0 =
      (Except.error (Err.unsupportedPlatform envNoPlat.platform),
       if defaults optsEmpty.port 0 = 0 then w0
       else { probeCount := w0.probeCount + 1,
              trace := w0.trace ++ [Event.probeAttempt (defaults optsEmpty.port 0)] })
    ∧ (∀ e ∈ [Event.probeAttempt (defaults optsEmpty.port 0)], isWorkspaceEvent e = false) :=
  c4_amended envNoPlat optsEmpty w0 rfl (Or.inl rfl)

/-- C6: when the finder returns an empty sequence of installations (and no
explicit executable path was supplied), launch rejects with
`NoInstallationsFound` and PortSource is never invoked. -/
theorem c6_no_installations (env : Env) (opts : Options) (w : W)
    (hinst : env.installations = [])
    (hpath : opts.chromePath = none)
    (hplat : supportedPlatformsList.contains env.platform = true)
    (h : defaults opts.port 0 = 0 ∨ env.probe w.probeCount (defaults opts.port 0) = false) :
    ∃ w', Launcher.launch env (Launcher.create opts) w =
        (Except.error Err.noInstallationsFound, w')
      ∧ w'.trace = w.trace
          ++ (if defaults opts.port 0 = 0 then []
              else [Event.probeAttempt (defaults opts.port 0)])
          ++ [Event.mkTmpDirEv env.tmpDir,
              Event.openLogEv (env.tmpDir ++ "/chrome-out.log"),
              Event.openLogEv (env.tmpDir ++ "/chrome-err.log"),
              Event.findInstallationsEv env.platform]
      ∧ w'.trace.countP isPortSourceEvent = w.trace.countP isPortSourceEvent := by
  have hplatm : env.platform ∈ supportedPlatformsList := by
    simpa using hplat
  by_cases hz : defaults opts.port 0 = 0
  · have heq : Launcher.launch env (Launcher.create opts) w =
        (Except.error Err.noInstallationsFound,
         { probeCount := w.probeCount,
           trace := w.trace ++
             [Event.mkTmpDirEv env.tmpDir,
              Event.openLogEv (env.tmpDir ++ "/chrome-out.log"),
              Event.openLogEv (env.tmpDir ++ "/chrome-err.log"),
              Event.findInstallationsEv env.platform] }) := by
      simp [Launcher.launch, Launcher.launchRest, Launcher.create, Launcher.prepare, W.emit,
        hz, hpath, hinst, hplatm]
    refine ⟨_, heq, by simp [hz], by simp [List.countP_append, isPortSourceEvent]⟩
  · rcases h with h | h
    · exact absurd h hz
    · have heq : Launcher.launch env (Launcher.create opts) w =
          (Except.error Err.noInstallationsFound,
           { probeCount := w.probeCount + 1,
             trace := (w.trace ++ [Event.probeAttempt (defaults opts.port 0)]) ++
               [Event.mkTmpDirEv env.tmpDir,
                Event.openLogEv (env.tmpDir ++ "/chrome-out.log"),
                Event.openLogEv (env.tmpDir ++ "/chrome-err.log"),
                Event.findInstallationsEv env.platform] }) := by
        simp [Launcher.launch, Launcher.launchRest, Launcher.create, Launcher.prepare,
          Launcher.isDebuggerReady, W.emit, hz, h, hpath, hinst, hplatm,
          List.append_assoc]
      refine ⟨_, heq, by simp [hz, List.append_assoc], ?_⟩
      simp [List.countP_append, isPortSourceEvent]

/-- Witness for C6: empty installation list, darwin platform, no options. -/
theorem c6_no_installations_witness :
    ∃ w', Launcher.launch envNoInstall (Launcher.create optsEmpty) w0 =
        (Except.error Err.noInstallationsFound, w')
      ∧ w'.trace = w0.trace
          ++ (if defaults optsEmpty.port 0 = 0 then []
              else [Event.probeAttempt (defaults optsEmpty.port 0)])
          ++ [Event.mkTmpDirEv envNoInstall.tmpDir,
              Event.openLogEv (envNoInstall.tmpDir ++ "/chrome-out.log"),
              Event.openLogEv (envNoInstall.tmpDir ++ "/chrome-err.log"),
              Event.findInstallationsEv envNoInstall.platform]
      ∧ w'.trace.countP isPortSourceEvent = w0.trace.countP isPortSourceEvent :=
  c6_no_installations envNoInstall optsEmpty w0 rfl rfl rfl (Or.inl rfl)

/-- C7: with a spawned subprocess, a failing OS-level termination call inside
kill is logged (the warning is in the final trace) and swallowed — kill still
resolves — and the value kill resolves with is exactly the output of workspace
teardown, run on a world that already contains the subprocess's close
notification. -/
theorem c7_kill_best_effort (env : Env) (l : Launcher) (w : W) (pid : Nat)
    (hc : l.chrome = some pid) (hko : env.killOk = false) :
    ∃ l1 w1, Launcher.kill env l w = (Except.ok l1, w1)
      ∧ Event.warnKillFailedEv ∈ w1.trace
      ∧ Event.childClosedEv pid ∈ (killPrefixW env w pid).trace
      ∧ Launcher.destroyTmp env { l with chrome := none } (killPrefixW env w pid) = (l1, w1) := by
  refine ⟨_, _, kill_some env l w pid hc, ?_, ?_, ?_⟩
  · apply destroyTmp_trace_mono
    by_cases hw : env.platform == "win32" <;> simp [killPrefixW, hko, hw, W.emit]
  · by_cases hw : env.platform == "win32" <;> simp [killPrefixW, hko, hw, W.emit]
  · exact (Prod.mk.eta).symm

/-- Witness for C7: subprocess pid 7, termination call throws. -/
theorem c7_kill_best_effort_witness :
    ∃ l1 w1, Launcher.kill envKillFails launcherWithChrome w0 = (Except.ok l1, w1)
      ∧ Event.warnKillFailedEv ∈ w1.trace
      ∧ Event.childClosedEv 7 ∈ (killPrefixW envKillFails w0 7).trace
      ∧ Launcher.destroyTmp envKillFails { launcherWithChrome with chrome := none }
          (killPrefixW envKillFails w0 7) = (l1, w1) :=
  c7_kill_best_effort envKillFails launcherWithChrome w0 7 rfl rfl

/-- C10: after any kill of an instance with a spawned subprocess — for every
environment, including one whose termination call throws — the subprocess
reference is cleared, and a subsequent kill resolves with the same state and
performs no further termination or teardown effects. -/
theorem c10_kill_clears_ref (env : Env) (l : Launcher) (w : W) (pid : Nat)
    (hc : l.chrome = some pid) :
    ∃ l1 w1, Launcher.kill env l w = (Except.ok l1, w1) ∧ l1.chrome = none
      ∧ Launcher.kill env l1 w1 = (Except.ok l1, w1) := by
  obtain ⟨l1, w1, h1, hnone⟩ := kill_resolves env l w
  exact ⟨l1, w1, h1, hnone, by simp [Launcher.kill, hnone]⟩

/-- Witness for C10: subprocess pid 7 under the environment whose termination
call throws. -/
theorem c10_kill_clears_ref_witness :
    ∃ l1 w1, Launcher.kill envKillFails launcherWithChrome w0 = (Except.ok l1, w1)
      ∧ l1.chrome = none
      ∧ Launcher.kill envKillFails l1 w1 = (Except.ok l1, w1) :=
  c10_kill_clears_ref envKillFails launcherWithChrome w0 7 rfl

/-- C8 (code evaluated at the failing input): on the reuse path — requested
port 9222 with a listener already accepting — the public entry point resolves
with a handle whose `port` is defined but whose `pid` is undefined, although
the declared `LaunchedChrome` interface promises a number. -/
theorem c8_reuse_pid_undefined :
    (launchEntry envListen optsPort9222 w0).1 =
      Except.ok { pid := none, port := some 9222 } := by
  rfl

/-- Counterexample to C9: the public entry point mutates the caller's options
object — with `handleSIGINT` left undefined, the field reads `some true` after
the call. -/
theorem c9_counterexample :
    (launchEntry envListen optsPort9222 w0).2.1.handleSIGINT = some true
    ∧ optsPort9222.handleSIGINT = none := by
  exact ⟨rfl, rfl⟩

/-- C9 (amended): the public entry point mutates exactly the `handleSIGINT`
field of the caller-supplied options, overwriting it with its resolved default
(true when absent); every other field is left unchanged, and an explicitly
supplied `handleSIGINT` keeps its value. -/
theorem c9_amended (env : Env) (opts : Options) (w : W) :
    (launchEntry env opts w).2.1.handleSIGINT = some (defaults opts.handleSIGINT true)
    ∧ (launchEntry env opts w).2.1.startingUrl = opts.startingUrl
    ∧ (launchEntry env opts w).2.1.chromeFlags = opts.chromeFlags
    ∧ (launchEntry env opts w).2.1.port = opts.port
    ∧ (launchEntry env opts w).2.1.chromePath = opts.chromePath
    ∧ (∀ b, opts.handleSIGINT = some b → (launchEntry env opts w).2.1.handleSIGINT = some b) := by
  have ho := launchEntry_opts env opts w
  refine ⟨by simp [ho], by simp [ho], by simp [ho], by simp [ho], by simp [ho], ?_⟩
  intro b hb
  simp [ho, hb, defaults]

/-- Counterexample to C5: with requested port 0, a random port of 5555, and a
caller extra flag textually equal to the debugging-port flag, the spawned
argument vector contains that flag twice while the launch still resolves with
port 5555 — so the assembled sequence does not contain exactly one
`--remote-debugging-port=<port>` entry for the returned port. -/
theorem c5_counterexample :
    (spawnedArgs (Launcher.launch envListen (Launcher.create optsDupFlag) w0).2).map
        (fun args => args.count (dbgFlag 5555)) = [2]
    ∧ portOfResult (Launcher.launch envListen (Launcher.create optsDupFlag) w0).1 =
        some 5555 := by
  refine ⟨?_, ?_⟩ <;>
    simp [Launcher.launch, Launcher.launchRest, Launcher.create, Launcher.prepare,
      Launcher.spawn, Launcher.flags, Launcher.waitUntilReady, pollAux_firstSuccess, W.emit,
      spawnedArgs, portOfResult, dbgFlag, numStr, dirStr, envListen, optsDupFlag, w0, defaults,
      supportedPlatformsList, Except.map] <;>
    decide

/-- C5 (amended): with requested port 0 and a reachable debugger once spawned,
the spawned argument vector is exactly default flags, then the debugging-port
flag for the PortSource port, then the user-data-dir flag, then (Linux only)
the sandbox-disable flag, then the caller extra flags, then the starting URL;
and provided no other assembled entry textually equals the debugging-port
flag — the modelled DEFAULT_FLAGS contract plus a non-adversarial caller —
that entry occurs exactly once, and its port is the port the launch returns. -/
theorem c5_amended (env : Env) (opts : Options) (w : W)
    (hport : defaults opts.port 0 = 0)
    (hplat : supportedPlatformsList.contains env.platform = true)
    (hready : ∀ n, env.probe n env.randomPort = true)
    (hfind : env.installations ≠ [])
    (hclean : ∀ f ∈ env.defaultFlags
        ++ ["--user-data-dir=" ++ env.tmpDir]
        ++ (if env.platform == "linux" then ["--disable-setuid-sandbox"] else [])
        ++ defaults opts.chromeFlags []
        ++ [defaults opts.startingUrl "about:blank"],
      f ≠ dbgFlag env.randomPort) :
    (∃ l', (Launcher.launch env (Launcher.create opts) w).1 = Except.ok l')
    ∧ portOfResult (Launcher.launch env (Launcher.create opts) w).1 = some env.randomPort
    ∧ spawnedArgs (Launcher.launch env (Launcher.create opts) w).2 =
        spawnedArgs w ++
          [env.defaultFlags
            ++ [dbgFlag env.randomPort, "--user-data-dir=" ++ env.tmpDir]
            ++ (if env.platform == "linux" then ["--disable-setuid-sandbox"] else [])
            ++ defaults opts.chromeFlags []
            ++ [defaults opts.startingUrl "about:blank"]]
    ∧ (env.defaultFlags
        ++ [dbgFlag env.randomPort, "--user-data-dir=" ++ env.tmpDir]
        ++ (if env.platform == "linux" then ["--disable-setuid-sandbox"] else [])
        ++ defaults opts.chromeFlags []
        ++ [defaults opts.startingUrl "about:blank"]).count (dbgFlag env.randomPort) = 1 := by
  have hplatm : env.platform ∈ supportedPlatformsList := by simpa using hplat
  have hps : ∀ (l : Launcher) (k : Nat) (w' : W), l.port = some env.randomPort →
      Launcher.pollAux env l k w' =
        (Except.ok (), { probeCount := w'.probeCount + 1,
                         trace := w'.trace ++ [Event.probeAttempt env.randomPort] }) := by
    intro l k w' hp
    have h := pollAux_firstSuccess env l k w' (by rw [hp]; exact hready _)
    rw [hp] at h
    simpa using h
  obtain ⟨first, rest, hI⟩ : ∃ f r, env.installations = f :: r := by
    cases hI : env.installations with
    | nil => exact absurd hI hfind
    | cons f r => exact ⟨f, r, rfl⟩
  have hcount : (env.defaultFlags
      ++ [dbgFlag env.randomPort, "--user-data-dir=" ++ env.tmpDir]
      ++ (if env.platform == "linux" then ["--disable-setuid-sandbox"] else [])
      ++ defaults opts.chromeFlags []
      ++ [defaults opts.startingUrl "about:blank"]).count (dbgFlag env.randomPort) = 1 := by
    have h1 : dbgFlag env.randomPort ∉ env.defaultFlags := by
      intro hm
      exact hclean _ (by simp [hm]) rfl
    have h2 : ¬ ("--user-data-dir=" ++ env.tmpDir = dbgFlag env.randomPort) := by
      exact hclean _ (by simp)
    have h4 : dbgFlag env.randomPort ∉ defaults opts.chromeFlags [] := by
      intro hm
      exact hclean _ (by simp [hm]) rfl
    have h5 : ¬ (defaults opts.startingUrl "about:blank" = dbgFlag env.randomPort) := by
      exact hclean _ (by simp)
    by_cases hlin : env.platform == "linux"
    · have h3 : ¬ ("--disable-setuid-sandbox" = dbgFlag env.randomPort) := by
        exact hclean _ (by simp [hlin])
      simp [hlin, List.count_append, List.count_cons, h2, h3, h5,
        List.count_eq_zero.mpr h1, List.count_eq_zero.mpr h4]
    · simp [hlin, List.count_append, List.count_cons, h2, h5,
        List.count_eq_zero.mpr h1, List.count_eq_zero.mpr h4]
  refine ⟨?_, ?_, ?_, hcount⟩ <;>
  · cases hcp : opts.chromePath with
    | none =>
      simp [Launcher.launch, Launcher.launchRest, Launcher.create, Launcher.prepare,
        Launcher.spawn, Launcher.flags, Launcher.waitUntilReady, hps, W.emit, spawnedArgs,
        portOfResult, dbgFlag, numStr, dirStr, hport, hcp, hI, hplatm, Except.map,
        List.append_assoc] <;>
      (split_ifs <;> simp)
    | some path =>
      simp [Launcher.launch, Launcher.launchRest, Launcher.create, Launcher.prepare,
        Launcher.spawn, Launcher.flags, Launcher.waitUntilReady, hps, W.emit, spawnedArgs,
        portOfResult, dbgFlag, numStr, dirStr, hport, hcp, hplatm, Except.map,
        List.append_assoc] <;>
      (split_ifs <;> simp)

/-- Witness for C5 (amended) on a Linux host with one modelled default flag,
one caller extra flag, and an explicit starting URL. -/
theorem c5_amended_witness :
    (∃ l', (Launcher.launch envLinux (Launcher.create optsExtra) w0).1 = Except.ok l')
    ∧ portOfResult (Launcher.launch envLinux (Launcher.create optsExtra) w0).1 =
        some envLinux.randomPort
    ∧ spawnedArgs (Launcher.launch envLinux (Launcher.create optsExtra) w0).2 =
        spawnedArgs w0 ++
          [envLinux.defaultFlags
            ++ [dbgFlag envLinux.randomPort, "--user-data-dir=" ++ envLinux.tmpDir]
            ++ (if envLinux.platform == "linux" then ["--disable-setuid-sandbox"] else [])
            ++ defaults optsExtra.chromeFlags []
            ++ [defaults optsExtra.startingUrl "about:blank"]]
    ∧ (envLinux.defaultFlags
        ++ [dbgFlag envLinux.randomPort, "--user-data-dir=" ++ envLinux.tmpDir]
        ++ (if envLinux.platform == "linux" then ["--disable-setuid-sandbox"] else [])
        ++ defaults optsExtra.chromeFlags []
        ++ [defaults optsExtra.startingUrl "about:blank"]).count
          (dbgFlag envLinux.randomPort) = 1 :=
  c5_amended envLinux optsExtra w0 rfl rfl (fun _ => rfl) (by decide) (by decide)
